import Mathlib

/-!
# Verification of `strategy.py` (ChatFacade over a Mistral-style completion API)

Shallow embedding of the repository's only source file, `src/strategy.py`.

Modelling choices:
- Python dicts whose values are strings (the result dicts of the strategies)
  become association lists `List (String × String)`; lookup is first-match.
- The vendor SDK call `self.client.chat.complete(model=..., messages=...)`
  becomes an oracle `VendorClient : String → List Message → Except String ChatResponse`;
  `Except.error e` models the call raising an exception whose `str` is `e`.
  The `try`/`except Exception` block of each strategy becomes a `match` on
  that `Except` (plus the `choices[0]` indexing, which sits inside the same
  `try` and raises `IndexError` on an empty choice list).
- The filesystem becomes `FS : String → Option (List Nat)` mapping a path to
  the raw bytes of the file stored there (`none` = no file at that path);
  `os.path.exists p` is `(fs p).isSome`.
- Python exceptions that escape a method (`ValueError`, `FileNotFoundError`,
  `KeyError`, `IndexError`) become an `Except PyErr` result; methods that
  mutate `self` return the updated facade record next to the result, and on a
  raise they return the facade exactly as it was at the raise point.
- `base64.b64encode(data).decode('utf-8')` is `b64encodeBytes` below, the
  standard RFC 4648 alphabet with `=` padding, rendered as a `String`.
- Python truthiness of the `image_path` argument (`if image_path:`) is
  modelled exactly: `None` and the empty string are falsy, every other
  string is truthy.
-/

/-- A Python dict with string keys and string values, as an association list
(the result dicts built by the strategies). -/
abbrev PyDict := List (String × String)

/-- First-match lookup in an association list, i.e. Python `d[k]` returning
`none` when the key is absent. -/
def dictGet {α : Type} (d : List (String × α)) (k : String) : Option α :=
  match d with
  | [] => none
  | (k₁, v) :: rest => if k₁ = k then some v else dictGet rest k

/-- Python exceptions that escape a `ChatFacade` method. -/
inductive PyErr : Type where
  | valueError : String → PyErr
  | fileNotFoundError : String → PyErr
  | keyError : String → PyErr
  | indexError : PyErr
deriving DecidableEq, Repr

/-- One part of a multimodal message content list: either an
`image_url` part holding the data-URI string, or a `text` part. -/
inductive ContentPart : Type where
  | image_url : String → ContentPart
  | text : String → ContentPart
deriving DecidableEq, Repr

/-- Message content: either a plain string or a list of typed parts. -/
inductive MessageContent : Type where
  | str : String → MessageContent
  | parts : List ContentPart → MessageContent
deriving DecidableEq, Repr

/-- A chat message as sent to the vendor API. -/
structure Message : Type where
  role : String
  content : MessageContent
deriving DecidableEq, Repr

/-- The message object inside one choice of the vendor response. -/
structure ChoiceMessage : Type where
  content : String
deriving DecidableEq, Repr

/-- One choice of the vendor response. -/
structure Choice : Type where
  message : ChoiceMessage
deriving DecidableEq, Repr

/-- The vendor response: a list of choices. -/
structure ChatResponse : Type where
  choices : List Choice
deriving DecidableEq, Repr

/-- The vendor SDK call `client.chat.complete(model, messages)`:
given the model identifier and the message list it either returns a
`ChatResponse` or raises (`Except.error` with the exception's message). -/
abbrev VendorClient := String → List Message → Except String ChatResponse

/-- The filesystem: a path either holds a file with these raw bytes, or no
file exists at that path. -/
abbrev FS := String → Option (List Nat)

instance {ε α : Type} [DecidableEq ε] [DecidableEq α] : DecidableEq (Except ε α) :=
  fun x y =>
    match x, y with
    | .error a, .error b =>
        if h : a = b then .isTrue (by rw [h]) else .isFalse (by simp [h])
    | .error _, .ok _ => .isFalse (by simp)
    | .ok _, .error _ => .isFalse (by simp)
    | .ok a, .ok b =>
        if h : a = b then .isTrue (by rw [h]) else .isFalse (by simp [h])

/-! ## Base64 (the `base64.b64encode(...).decode('utf-8')` step) -/

/-- Codepoint of the base64 alphabet character at index `n` (standard
RFC 4648 alphabet `A..Za..z0..9+/`, the one Python's `base64.b64encode`
uses). -/
def b64CharCode (n : Nat) : Nat :=
  if n < 26 then 65 + n
  else if n < 52 then 71 + n
  else if n < 62 then n - 4
  else if n = 62 then 43
  else 47

/-- The base64 alphabet character at index `n`. -/
def b64Char (n : Nat) : Char := Char.ofNat (b64CharCode n)

/-- Index of a base64 alphabet character (mathematical inverse of
`b64Char` on the alphabet). -/
def b64Index (c : Char) : Nat :=
  let v := c.toNat
  if 65 ≤ v ∧ v ≤ 90 then v - 65
  else if 97 ≤ v ∧ v ≤ 122 then v - 71
  else if 48 ≤ v ∧ v ≤ 57 then v + 4
  else if v = 43 then 62
  else 63

/-- Standard base64 encoding of a byte list, with `=` padding: what Python's
`base64.b64encode` produces (as characters). -/
def b64encodeBytes : List Nat → List Char
  | [] => []
  | [b₁] =>
      [b64Char (b₁ / 4), b64Char (b₁ % 4 * 16), '=', '=']
  | [b₁, b₂] =>
      [b64Char (b₁ / 4), b64Char (b₁ % 4 * 16 + b₂ / 16),
       b64Char (b₂ % 16 * 4), '=']
  | b₁ :: b₂ :: b₃ :: rest =>
      b64Char (b₁ / 4) ::
      b64Char (b₁ % 4 * 16 + b₂ / 16) ::
      b64Char (b₂ % 16 * 4 + b₃ / 64) ::
      b64Char (b₃ % 64) ::
      b64encodeBytes rest

/-- Standard base64 decoding of a character list back to bytes, honouring
`=` padding. -/
def b64decodeBytes : List Char → List Nat
  | c₁ :: c₂ :: c₃ :: c₄ :: rest =>
      if c₃ = '=' then
        [b64Index c₁ * 4 + b64Index c₂ / 16]
      else if c₄ = '=' then
        [b64Index c₁ * 4 + b64Index c₂ / 16,
         b64Index c₂ % 16 * 16 + b64Index c₃ / 4]
      else
        (b64Index c₁ * 4 + b64Index c₂ / 16) ::
        (b64Index c₂ % 16 * 16 + b64Index c₃ / 4) ::
        (b64Index c₃ % 4 * 64 + b64Index c₄) ::
        b64decodeBytes rest
  | _ => []

/-! ## The two strategies -/

/-- The message list `TextRequestStrategy.execute` sends: one user message
whose content is the plain prompt string. -/
def textMessages (text : String) : List Message :=
  [{ role := "user", content := MessageContent.str text }]

/-- The message list `ImageRequestStrategy.execute` sends: one user message
with an `image_url` part (JPEG data URI around the base64 payload) followed
by a `text` part. -/
def imageMessages (text image_data : String) : List Message :=
  [{ role := "user",
     content := MessageContent.parts
       [ContentPart.image_url ("data:image/jpeg;base64," ++ image_data),
        ContentPart.text text] }]

/-- `TextRequestStrategy.execute(text, model)`: issue the completion call;
on success return `{response: choices[0].message.content, model}`; any
exception inside the `try` (the call raising, or `choices[0]` on an empty
list) is caught and turned into `{error: "Unexpected error: <msg>", model}`. -/
def TextRequestStrategy.execute (client : VendorClient) (text model : String) : PyDict :=
  match client model (textMessages text) with
  | .error e => [("error", "Unexpected error: " ++ e), ("model", model)]
  | .ok chat_response =>
      match chat_response.choices with
      | [] => [("error", "Unexpected error: list index out of range"), ("model", model)]
      | c :: _ => [("response", c.message.content), ("model", model)]

/-- `ImageRequestStrategy.execute(text, model, history=None, image_data)`:
same shape as the text strategy, but the message carries the image data URI
part and the text part. -/
def ImageRequestStrategy.execute (client : VendorClient) (text model image_data : String) : PyDict :=
  match client model (imageMessages text image_data) with
  | .error e => [("error", "Unexpected error: " ++ e), ("model", model)]
  | .ok response =>
      match response.choices with
      | [] => [("error", "Unexpected error: list index out of range"), ("model", model)]
      | c :: _ => [("response", c.message.content), ("model", model)]

/-! ## ChatFacade -/

/-- The mutable state of a `ChatFacade`: the history list (each entry is the
one-key dict `{text: response}`), the model catalog `MODELS` from settings,
and the current strategy mode string. The two strategy objects hold no state
beyond the shared client handle, so the client is passed as a parameter. -/
structure ChatFacade : Type where
  history : List (List (String × PyDict))
  models : List (String × List String)
  strategy : String
deriving DecidableEq, Repr

/-- `ChatFacade.__init__`: empty history, catalog from settings, strategy
set to the empty string. -/
def ChatFacade.init (models : List (String × List String)) : ChatFacade :=
  { history := [], models := models, strategy := "" }

/-- `ChatFacade.change_strategy(strategy_type)`: store the mode and return it
when it is `"text"` or `"image"`; otherwise raise `ValueError` leaving the
facade untouched. -/
def ChatFacade.change_strategy (f : ChatFacade) (strategy_type : String) :
    Except PyErr String × ChatFacade :=
  if strategy_type = "text" ∨ strategy_type = "image" then
    (Except.ok strategy_type, { f with strategy := strategy_type })
  else
    (Except.error (PyErr.valueError "Некорректный режим работы"), f)

/-- `ChatFacade.select_model(strategy)`: the first entry of
`self.models['text']` or `self.models['image']`; a missing key raises
`KeyError`, an empty list raises `IndexError`, any other mode raises
`ValueError`. -/
def ChatFacade.select_model (f : ChatFacade) (strategy : String) : Except PyErr String :=
  if strategy = "text" then
    match dictGet f.models "text" with
    | none => Except.error (PyErr.keyError "text")
    | some ms =>
        match ms with
        | [] => Except.error PyErr.indexError
        | m :: _ => Except.ok m
  else if strategy = "image" then
    match dictGet f.models "image" with
    | none => Except.error (PyErr.keyError "image")
    | some ms =>
        match ms with
        | [] => Except.error PyErr.indexError
        | m :: _ => Except.ok m
  else
    Except.error (PyErr.valueError "Некорректный режим работы")

/-- `ChatFacade.load_image(image_path)`: raise `FileNotFoundError` when
`os.path.exists(image_path)` is false, otherwise read the raw bytes and
return `base64.b64encode(data).decode('utf-8')`. -/
def ChatFacade.load_image (fs : FS) (image_path : String) : Except PyErr String :=
  match fs image_path with
  | none => Except.error (PyErr.fileNotFoundError "Изображение не найдено")
  | some image_data => Except.ok (String.mk (b64encodeBytes image_data))

/-- `ChatFacade.ask_question(text, model, image_path=None)`: Python's
`if image_path:` — so a truthy (present, non-empty) path loads the image and
dispatches `image_request.execute(text, model, None, base64_image)`, while
`None` and the empty string dispatch `text_request.execute(text, model)`;
the response is appended to the history as `{text: response}` and returned.
A raise out of `load_image` propagates with the facade unchanged. -/
def ChatFacade.ask_question (client : VendorClient) (fs : FS) (f : ChatFacade)
    (text model : String) (image_path : Option String) :
    Except PyErr PyDict × ChatFacade :=
  match image_path with
  | some p =>
      if p = "" then
        let response := TextRequestStrategy.execute client text model
        (Except.ok response, { f with history := f.history ++ [[(text, response)]] })
      else
        match ChatFacade.load_image fs p with
        | .error e => (Except.error e, f)
        | .ok base64_image =>
            let response := ImageRequestStrategy.execute client text model base64_image
            (Except.ok response, { f with history := f.history ++ [[(text, response)]] })
  | none =>
      let response := TextRequestStrategy.execute client text model
      (Except.ok response, { f with history := f.history ++ [[(text, response)]] })

/-- `ChatFacade.get_history()`: the history list. -/
def ChatFacade.get_history (f : ChatFacade) : List (List (String × PyDict)) :=
  f.history

/-- `ChatFacade.clear_history()`: reset history to the empty list. -/
def ChatFacade.clear_history (f : ChatFacade) : ChatFacade :=
  { f with history := [] }

/-! ## Derived characterizations and concrete fixtures -/

/-- The result component of `ask_question`, in isolation: proved below
(`ask_question_decompose`) to characterize `ChatFacade.ask_question`. -/
def askResult (client : VendorClient) (fs : FS) (text model : String) :
    Option String → Except PyErr PyDict
  | some p =>
      if p = "" then Except.ok (TextRequestStrategy.execute client text model)
      else
        match ChatFacade.load_image fs p with
        | .error e => Except.error e
        | .ok d => Except.ok (ImageRequestStrategy.execute client text model d)
  | none => Except.ok (TextRequestStrategy.execute client text model)

/-- The two admissible shapes of a strategy result dict: the `model` key
maps to the model argument, and the dict carries a `response` key or an
`error` key but never both and never neither. -/
def resultShapeOK (d : PyDict) (model : String) : Prop :=
  dictGet d "model" = some model ∧
  (((dictGet d "response").isSome ∧ dictGet d "error" = none) ∨
   ((dictGet d "error").isSome ∧ dictGet d "response" = none))

/-- Stub vendor client that always succeeds with content `"C"`. -/
def cClientC : VendorClient := fun _ _ =>
  Except.ok { choices := [{ message := { content := "C" } }] }

/-- Stub vendor client that answers `"TEXT"` to a single plain-string
message and `"IMAGE"` to any other message list, so the dispatched strategy
is visible in the result. -/
def cClientTI : VendorClient := fun _ msgs =>
  match msgs with
  | [{ role := _, content := MessageContent.str _ }] =>
      Except.ok { choices := [{ message := { content := "TEXT" } }] }
  | _ => Except.ok { choices := [{ message := { content := "IMAGE" } }] }

/-- Stub vendor client that always raises with message `"boom"`. -/
def cClientBoom : VendorClient := fun _ _ => Except.error "boom"

/-- A filesystem with no files at all. -/
def cFS0 : FS := fun _ => none

/-- A filesystem storing a three-byte file at `"pic.png"` and — to probe
the dispatch decision only — one byte at the empty-string path. -/
def cFSe : FS := fun p =>
  if p = "" then some [65]
  else if p = "pic.png" then some [0, 1, 255] else none

/-- The spec's example model catalog. -/
def cCatalog : List (String × List String) :=
  [("text", ["m1", "m2"]), ("image", ["m3"])]

/-- A freshly constructed facade over the example catalog. -/
def cFacade0 : ChatFacade := ChatFacade.init cCatalog

/-! ## Base64 inverse lemmas -/

theorem b64Index_b64Char_fin : ∀ n : Fin 64, b64Index (b64Char n.val) = n.val := by
  decide

theorem b64Char_ne_pad_fin : ∀ n : Fin 64, b64Char n.val ≠ '=' := by
  decide

theorem b64Index_b64Char (n : Nat) (h : n < 64) : b64Index (b64Char n) = n :=
  b64Index_b64Char_fin ⟨n, h⟩

theorem b64Char_ne_pad (n : Nat) (h : n < 64) : b64Char n ≠ '=' :=
  b64Char_ne_pad_fin ⟨n, h⟩

theorem b64_pad₁ (b₁ : Nat) : b₁ / 4 * 4 + b₁ % 4 * 16 / 16 = b₁ := by
  rw [Nat.mul_div_cancel _ (by norm_num : 0 < 16)]
  omega

theorem b64_byte₁ (b₁ b₂ : Nat) (h₂ : b₂ < 256) :
    b₁ / 4 * 4 + (b₁ % 4 * 16 + b₂ / 16) / 16 = b₁ := by
  rw [Nat.mul_comm (b₁ % 4) 16, Nat.mul_add_div (by norm_num)]
  rw [Nat.div_div_eq_div_mul]
  have h : b₂ / (16 * 16) = 0 := by omega
  rw [h]
  omega

theorem b64_pad₂ (b₁ b₂ : Nat) (h₂ : b₂ < 256) :
    (b₁ % 4 * 16 + b₂ / 16) % 16 * 16 + b₂ % 16 * 4 / 4 = b₂ := by
  rw [Nat.mul_add_mod', Nat.mod_eq_of_lt (by omega : b₂ / 16 < 16)]
  rw [Nat.mul_div_cancel _ (by norm_num : 0 < 4)]
  omega

theorem b64_byte₂ (b₁ b₂ b₃ : Nat) (h₂ : b₂ < 256) (h₃ : b₃ < 256) :
    (b₁ % 4 * 16 + b₂ / 16) % 16 * 16 + (b₂ % 16 * 4 + b₃ / 64) / 4 = b₂ := by
  rw [Nat.mul_add_mod', Nat.mod_eq_of_lt (by omega : b₂ / 16 < 16)]
  rw [Nat.mul_comm (b₂ % 16) 4, Nat.mul_add_div (by norm_num)]
  rw [Nat.div_div_eq_div_mul]
  have h : b₃ / (64 * 4) = 0 := by omega
  rw [h]
  omega

theorem b64_byte₃ (b₂ b₃ : Nat) (h₃ : b₃ < 256) :
    (b₂ % 16 * 4 + b₃ / 64) % 4 * 64 + b₃ % 64 = b₃ := by
  rw [Nat.mul_add_mod', Nat.mod_eq_of_lt (by omega : b₃ / 64 < 4)]
  omega

/-- Decoding inverts encoding on lists of genuine bytes. -/
theorem b64decode_b64encode : ∀ bs : List Nat, (∀ b ∈ bs, b < 256) →
    b64decodeBytes (b64encodeBytes bs) = bs
  | [], _ => by simp [b64encodeBytes, b64decodeBytes]
  | [b₁], h => by
      have hb₁ : b₁ < 256 := h b₁ (by simp)
      simp only [b64encodeBytes, b64decodeBytes, if_pos rfl]
      rw [b64Index_b64Char _ (by omega), b64Index_b64Char _ (by omega)]
      rw [b64_pad₁ b₁, if_pos trivial]
  | [b₁, b₂], h => by
      have hb₁ : b₁ < 256 := h b₁ (by simp)
      have hb₂ : b₂ < 256 := h b₂ (by simp)
      simp only [b64encodeBytes, b64decodeBytes]
      rw [if_neg (b64Char_ne_pad _ (by omega)), if_pos trivial]
      rw [b64Index_b64Char _ (by omega), b64Index_b64Char _ (by omega),
        b64Index_b64Char _ (by omega)]
      rw [b64_byte₁ b₁ b₂ hb₂, b64_pad₂ b₁ b₂ hb₂]
  | b₁ :: b₂ :: b₃ :: rest, h => by
      have hb₁ : b₁ < 256 := h b₁ (by simp)
      have hb₂ : b₂ < 256 := h b₂ (by simp)
      have hb₃ : b₃ < 256 := h b₃ (by simp)
      have ih := b64decode_b64encode rest (fun b hb => h b (by simp [hb]))
      simp only [b64encodeBytes, b64decodeBytes]
      rw [if_neg (b64Char_ne_pad _ (by omega)), if_neg (b64Char_ne_pad _ (by omega))]
      rw [b64Index_b64Char _ (by omega), b64Index_b64Char _ (by omega),
        b64Index_b64Char _ (by omega), b64Index_b64Char _ (by omega), ih]
      rw [b64_byte₁ b₁ b₂ hb₂, b64_byte₂ b₁ b₂ b₃ hb₂ hb₃, b64_byte₃ b₂ b₃ hb₃]

/-! ## Structure of `ask_question` -/

/-- `ask_question` splits into a pure result (`askResult`, depending only on
the client, filesystem and arguments) and a history append performed exactly
when the result is returned rather than raised. -/
theorem ask_question_decompose (client : VendorClient) (fs : FS) (f : ChatFacade)
    (text model : String) (ip : Option String) :
    ChatFacade.ask_question client fs f text model ip =
      (askResult client fs text model ip,
       match askResult client fs text model ip with
       | .ok r => { f with history := f.history ++ [[(text, r)]] }
       | .error _ => f) := by
  cases ip with
  | none => rfl
  | some p =>
      by_cases hp : p = ""
      · subst hp
        rfl
      · simp only [ChatFacade.ask_question, askResult, if_neg hp]
        cases ChatFacade.load_image fs p <;> rfl

/-- `change_strategy` touches only the `strategy` field. -/
theorem change_strategy_preserves (f : ChatFacade) (k : String) :
    ((ChatFacade.change_strategy f k).2).history = f.history ∧
    ((ChatFacade.change_strategy f k).2).models = f.models := by
  unfold ChatFacade.change_strategy
  by_cases h : k = "text" ∨ k = "image"
  · rw [if_pos h]
    exact ⟨rfl, rfl⟩
  · rw [if_neg h]
    exact ⟨rfl, rfl⟩

/-! ## Claims -/

/-- C1 (amended): `ask_question(text, model, image_path)` dispatches to the
image strategy with `(text, model, image_data)` when `image_path` is
supplied and non-empty (after loading and base64-encoding the file, a load
failure propagating instead), and dispatches to the text strategy with
`(text, model)` when `image_path` is not supplied or is the supplied empty
string; either way it returns the chosen strategy's result. -/
theorem C1_ask_question_dispatch (client : VendorClient) (fs : FS) (f : ChatFacade)
    (text model p : String) (hp : p ≠ "") :
    ChatFacade.ask_question client fs f text model (some p) =
      (match ChatFacade.load_image fs p with
       | .error e => (Except.error e, f)
       | .ok d =>
           (Except.ok (ImageRequestStrategy.execute client text model d),
            { f with history :=
                f.history ++ [[(text, ImageRequestStrategy.execute client text model d)]] })) ∧
    ChatFacade.ask_question client fs f text model none =
      (Except.ok (TextRequestStrategy.execute client text model),
       { f with history :=
           f.history ++ [[(text, TextRequestStrategy.execute client text model)]] }) ∧
    ChatFacade.ask_question client fs f text model (some "") =
      (Except.ok (TextRequestStrategy.execute client text model),
       { f with history :=
           f.history ++ [[(text, TextRequestStrategy.execute client text model)]] }) := by
  refine ⟨?_, rfl, rfl⟩
  simp only [ChatFacade.ask_question, if_neg hp]

/-- C1 witness: the amended dispatch claim evaluated at a concrete client,
filesystem, facade and a non-empty path. -/
theorem C1_witness :
    ChatFacade.ask_question cClientTI cFSe cFacade0 "q" "m" (some "pic.png") =
      (match ChatFacade.load_image cFSe "pic.png" with
       | .error e => (Except.error e, cFacade0)
       | .ok d =>
           (Except.ok (ImageRequestStrategy.execute cClientTI "q" "m" d),
            { cFacade0 with history :=
                cFacade0.history ++ [[("q", ImageRequestStrategy.execute cClientTI "q" "m" d)]] })) ∧
    ChatFacade.ask_question cClientTI cFSe cFacade0 "q" "m" none =
      (Except.ok (TextRequestStrategy.execute cClientTI "q" "m"),
       { cFacade0 with history :=
           cFacade0.history ++ [[("q", TextRequestStrategy.execute cClientTI "q" "m")]] }) ∧
    ChatFacade.ask_question cClientTI cFSe cFacade0 "q" "m" (some "") =
      (Except.ok (TextRequestStrategy.execute cClientTI "q" "m"),
       { cFacade0 with history :=
           cFacade0.history ++ [[("q", TextRequestStrategy.execute cClientTI "q" "m")]] }) :=
  C1_ask_question_dispatch cClientTI cFSe cFacade0 "q" "m" "pic.png" (by decide)

/-- C1 counterexample: the claim as stated fails for the supplied empty
path. The file at `""` loads fine (to `"QQ=="`), the image strategy on that
payload would answer `"IMAGE"`, but `ask_question` with the supplied
`image_path = ""` answers `"TEXT"`: it dispatched to the text strategy, not
the image strategy (Python's `if image_path:` treats `""` as absent). -/
theorem C1_counterexample :
    ChatFacade.load_image cFSe "" = Except.ok "QQ==" ∧
    (ChatFacade.ask_question cClientTI cFSe cFacade0 "q" "m" (some "")).1 =
      Except.ok [("response", "TEXT"), ("model", "m")] ∧
    ImageRequestStrategy.execute cClientTI "q" "m" "QQ==" =
      [("response", "IMAGE"), ("model", "m")] ∧
    (Except.ok [("response", "TEXT"), ("model", "m")] : Except PyErr PyDict) ≠
      Except.ok [("response", "IMAGE"), ("model", "m")] :=
  ⟨rfl, rfl, rfl, by decide⟩

/-- C2: an exception out of the vendor completion call is caught by both
strategies and returned in-band as the dict
`{error: "Unexpected error: <message>", model}` with the model echoed back;
the total return type of the embedding witnesses that no vendor fault is
re-raised. -/
theorem C2_strategies_swallow_vendor_errors (client : VendorClient)
    (text model image_data e₁ e₂ : String)
    (h₁ : client model (textMessages text) = Except.error e₁)
    (h₂ : client model (imageMessages text image_data) = Except.error e₂) :
    TextRequestStrategy.execute client text model =
      [("error", "Unexpected error: " ++ e₁), ("model", model)] ∧
    ImageRequestStrategy.execute client text model image_data =
      [("error", "Unexpected error: " ++ e₂), ("model", model)] := by
  constructor
  · unfold TextRequestStrategy.execute
    rw [h₁]
  · unfold ImageRequestStrategy.execute
    rw [h₂]

/-- C2 witness: both strategies on a client that always raises `"boom"`. -/
theorem C2_witness :
    TextRequestStrategy.execute cClientBoom "q" "m" =
      [("error", "Unexpected error: " ++ "boom"), ("model", "m")] ∧
    ImageRequestStrategy.execute cClientBoom "q" "m" "img" =
      [("error", "Unexpected error: " ++ "boom"), ("model", "m")] :=
  C2_strategies_swallow_vendor_errors cClientBoom "q" "m" "img" "boom" "boom" rfl rfl

/-- C3: `change_strategy(kind)` stores `kind` when it is `"text"` or
`"image"`, and for any other value raises `ValueError` leaving the facade —
in particular its strategy field — exactly as it was. -/
theorem C3_change_strategy (f : ChatFacade) (k : String) :
    (k = "text" ∨ k = "image" →
      ChatFacade.change_strategy f k = (Except.ok k, { f with strategy := k })) ∧
    (¬(k = "text" ∨ k = "image") →
      ChatFacade.change_strategy f k =
        (Except.error (PyErr.valueError "Некорректный режим работы"), f)) := by
  unfold ChatFacade.change_strategy
  constructor
  · intro h
    rw [if_pos h]
  · intro h
    rw [if_neg h]

/-- C3 witness: `change_strategy` on `"text"` and on `"bogus"`. -/
theorem C3_witness :
    ChatFacade.change_strategy cFacade0 "text" =
      (Except.ok "text", { cFacade0 with strategy := "text" }) ∧
    ChatFacade.change_strategy cFacade0 "bogus" =
      (Except.error (PyErr.valueError "Некорректный режим работы"), cFacade0) :=
  ⟨(C3_change_strategy cFacade0 "text").1 (Or.inl rfl),
   (C3_change_strategy cFacade0 "bogus").2 (by decide)⟩

/-- C4 (amended): `load_image(P)` raises `FileNotFoundError` when no file
exists at `P` and otherwise returns the base64 encoding of the file's raw
bytes as a UTF-8 string; consequently `ask_question(text, model, P)` with a
non-existent, non-empty `P` propagates that fault — for every client, so
the image strategy is never invoked — leaving the facade as it was. -/
theorem C4_load_image_not_found (fs : FS) (p : String) :
    (fs p = none →
      ChatFacade.load_image fs p =
        Except.error (PyErr.fileNotFoundError "Изображение не найдено")) ∧
    (∀ data : List Nat, fs p = some data →
      ChatFacade.load_image fs p = Except.ok (String.mk (b64encodeBytes data))) ∧
    (∀ (client : VendorClient) (f : ChatFacade) (text model : String),
      p ≠ "" → fs p = none →
      ChatFacade.ask_question client fs f text model (some p) =
        (Except.error (PyErr.fileNotFoundError "Изображение не найдено"), f)) := by
  refine ⟨?_, ?_, ?_⟩
  · intro h
    unfold ChatFacade.load_image
    rw [h]
  · intro data h
    unfold ChatFacade.load_image
    rw [h]
  · intro client f text model hp hn
    have hl : ChatFacade.load_image fs p =
        Except.error (PyErr.fileNotFoundError "Изображение не найдено") := by
      unfold ChatFacade.load_image
      rw [hn]
    simp only [ChatFacade.ask_question, if_neg hp, hl]

/-- C4 witness: a missing file and a present file on a concrete filesystem,
and the propagation through `ask_question`. -/
theorem C4_witness :
    ChatFacade.load_image cFSe "gone.png" =
      Except.error (PyErr.fileNotFoundError "Изображение не найдено") ∧
    ChatFacade.load_image cFSe "pic.png" =
      Except.ok (String.mk (b64encodeBytes [0, 1, 255])) ∧
    ChatFacade.ask_question cClientC cFSe cFacade0 "q" "m" (some "gone.png") =
      (Except.error (PyErr.fileNotFoundError "Изображение не найдено"), cFacade0) :=
  ⟨(C4_load_image_not_found cFSe "gone.png").1 rfl,
   (C4_load_image_not_found cFSe "pic.png").2.1 [0, 1, 255] rfl,
   (C4_load_image_not_found cFSe "gone.png").2.2 cClientC cFacade0 "q" "m" (by decide) rfl⟩

/-- C4 counterexample: the claim as stated fails at the non-existent path
`""`: `load_image` does raise the not-found fault on it, yet `ask_question`
with that supplied path returns an ok text-strategy result instead of
raising (Python's `if image_path:` never consults the filesystem for `""`). -/
theorem C4_counterexample :
    ChatFacade.load_image cFS0 "" =
      Except.error (PyErr.fileNotFoundError "Изображение не найдено") ∧
    (ChatFacade.ask_question cClientC cFS0 cFacade0 "q" "m" (some "")).1 =
      Except.ok [("response", "C"), ("model", "m")] ∧
    (Except.ok [("response", "C"), ("model", "m")] : Except PyErr PyDict) ≠
      Except.error (PyErr.fileNotFoundError "Изображение не найдено") :=
  ⟨rfl, rfl, by decide⟩

/-- C5: a returning `ask_question` call appends exactly one entry
`{text: result}` at the end of the history — the previous entries staying
untouched — and this holds whatever the result is, error results included. -/
theorem C5_history_append (client : VendorClient) (fs : FS) (f : ChatFacade)
    (text model : String) (ip : Option String) (r : PyDict) (f' : ChatFacade)
    (h : ChatFacade.ask_question client fs f text model ip = (Except.ok r, f')) :
    f'.history = f.history ++ [[(text, r)]] := by
  rw [ask_question_decompose] at h
  obtain ⟨h₁, h₂⟩ := Prod.ext_iff.mp h
  simp only at h₁ h₂
  subst h₂
  rw [h₁]

/-- C5 witness: one text call on a fresh facade grows the history from `[]`
to the single entry keyed by the prompt. -/
theorem C5_witness :
    (ChatFacade.mk [[("q", [("response", "C"), ("model", "m")])]] cCatalog "").history =
      cFacade0.history ++ [[("q", [("response", "C"), ("model", "m")])]] :=
  C5_history_append cClientC cFS0 cFacade0 "q" "m" none
    [("response", "C"), ("model", "m")]
    (ChatFacade.mk [[("q", [("response", "C"), ("model", "m")])]] cCatalog "") rfl

/-- C6: `select_model(mode)` returns the first model identifier configured
for `mode` when it is `"text"` or `"image"`, and raises `ValueError` for
every other mode string. -/
theorem C6_select_model (f : ChatFacade) (m₁ : String) (ms₁ : List String)
    (m₂ : String) (ms₂ : List String)
    (ht : dictGet f.models "text" = some (m₁ :: ms₁))
    (hi : dictGet f.models "image" = some (m₂ :: ms₂)) :
    ChatFacade.select_model f "text" = Except.ok m₁ ∧
    ChatFacade.select_model f "image" = Except.ok m₂ ∧
    ∀ mode : String, mode ≠ "text" → mode ≠ "image" →
      ChatFacade.select_model f mode =
        Except.error (PyErr.valueError "Некорректный режим работы") := by
  refine ⟨?_, ?_, ?_⟩
  · unfold ChatFacade.select_model
    rw [if_pos rfl, ht]
  · unfold ChatFacade.select_model
    rw [if_neg (by decide), if_pos rfl, hi]
  · intro mode h₁ h₂
    unfold ChatFacade.select_model
    rw [if_neg h₁, if_neg h₂]

/-- C6 witness: the spec's example catalog
`{"text": ["m1","m2"], "image": ["m3"]}`. -/
theorem C6_witness :
    ChatFacade.select_model cFacade0 "text" = Except.ok "m1" ∧
    ChatFacade.select_model cFacade0 "image" = Except.ok "m3" ∧
    ChatFacade.select_model cFacade0 "bogus" =
      Except.error (PyErr.valueError "Некорректный режим работы") :=
  ⟨(C6_select_model cFacade0 "m1" ["m2"] "m3" [] rfl rfl).1,
   (C6_select_model cFacade0 "m1" ["m2"] "m3" [] rfl rfl).2.1,
   (C6_select_model cFacade0 "m1" ["m2"] "m3" [] rfl rfl).2.2 "bogus" (by decide) (by decide)⟩

/-- C7: every dict either strategy returns carries the `model` key mapped to
the model argument and exactly one of the `response` and `error` keys. -/
theorem C7_result_shape (client : VendorClient) (text model image_data : String) :
    resultShapeOK (TextRequestStrategy.execute client text model) model ∧
    resultShapeOK (ImageRequestStrategy.execute client text model image_data) model := by
  constructor
  · unfold TextRequestStrategy.execute
    cases hc : client model (textMessages text) with
    | error e => simp [resultShapeOK, dictGet]
    | ok r =>
        cases r with
        | mk choices =>
            cases choices with
            | nil => simp [resultShapeOK, dictGet]
            | cons c rest => simp [resultShapeOK, dictGet]
  · unfold ImageRequestStrategy.execute
    cases hc : client model (imageMessages text image_data) with
    | error e => simp [resultShapeOK, dictGet]
    | ok r =>
        cases r with
        | mk choices =>
            cases choices with
            | nil => simp [resultShapeOK, dictGet]
            | cons c rest => simp [resultShapeOK, dictGet]

/-- C8: for a file holding any byte sequence, `load_image` returns the
base64 encoding of those bytes, and base64-decoding that string reproduces
the original byte sequence exactly. -/
theorem C8_base64_roundtrip (fs : FS) (p : String) (data : List Nat)
    (hf : fs p = some data) (hb : ∀ b ∈ data, b < 256) :
    ChatFacade.load_image fs p = Except.ok (String.mk (b64encodeBytes data)) ∧
    b64decodeBytes (String.mk (b64encodeBytes data)).data = data := by
  constructor
  · unfold ChatFacade.load_image
    rw [hf]
  · exact b64decode_b64encode data hb

/-- C8 witness: the round trip on the concrete file `[0, 1, 255]`. -/
theorem C8_witness :
    ChatFacade.load_image cFSe "pic.png" =
      Except.ok (String.mk (b64encodeBytes [0, 1, 255])) ∧
    b64decodeBytes (String.mk (b64encodeBytes [0, 1, 255])).data = [0, 1, 255] :=
  C8_base64_roundtrip cFSe "pic.png" [0, 1, 255] rfl (by decide)

/-- C9: the result of `ask_question` and its effect on the history do not
depend on the facade's strategy field: two facades agreeing on history and
models (whatever their strategy fields) give the same result and the same
history; composing with any `change_strategy` call leaves the dispatched
result unchanged. -/
theorem C9_strategy_noninterference (client : VendorClient) (fs : FS)
    (f₁ f₂ : ChatFacade) (text model : String) (ip : Option String)
    (hh : f₁.history = f₂.history) (_hm : f₁.models = f₂.models) :
    (ChatFacade.ask_question client fs f₁ text model ip).1 =
      (ChatFacade.ask_question client fs f₂ text model ip).1 ∧
    ((ChatFacade.ask_question client fs f₁ text model ip).2).history =
      ((ChatFacade.ask_question client fs f₂ text model ip).2).history ∧
    ∀ k : String,
      (ChatFacade.ask_question client fs ((ChatFacade.change_strategy f₁ k).2)
          text model ip).1 =
        (ChatFacade.ask_question client fs f₁ text model ip).1 := by
  refine ⟨?_, ?_, ?_⟩
  · rw [ask_question_decompose, ask_question_decompose]
  · rw [ask_question_decompose, ask_question_decompose]
    cases askResult client fs text model ip <;> simp [hh]
  · intro k
    rw [ask_question_decompose, ask_question_decompose]

/-- C9 witness: two facades differing only in their strategy field, and a
`change_strategy` call interposed before `ask_question`. -/
theorem C9_witness :
    (ChatFacade.ask_question cClientC cFS0 { cFacade0 with strategy := "text" }
        "q" "m" none).1 =
      (ChatFacade.ask_question cClientC cFS0 { cFacade0 with strategy := "image" }
        "q" "m" none).1 ∧
    ((ChatFacade.ask_question cClientC cFS0 { cFacade0 with strategy := "text" }
        "q" "m" none).2).history =
      ((ChatFacade.ask_question cClientC cFS0 { cFacade0 with strategy := "image" }
        "q" "m" none).2).history ∧
    (ChatFacade.ask_question cClientC cFS0
        ((ChatFacade.change_strategy { cFacade0 with strategy := "text" } "image").2)
        "q" "m" none).1 =
      (ChatFacade.ask_question cClientC cFS0 { cFacade0 with strategy := "text" }
        "q" "m" none).1 :=
  ⟨(C9_strategy_noninterference cClientC cFS0 { cFacade0 with strategy := "text" }
      { cFacade0 with strategy := "image" } "q" "m" none rfl rfl).1,
   (C9_strategy_noninterference cClientC cFS0 { cFacade0 with strategy := "text" }
      { cFacade0 with strategy := "image" } "q" "m" none rfl rfl).2.1,
   (C9_strategy_noninterference cClientC cFS0 { cFacade0 with strategy := "text" }
      { cFacade0 with strategy := "image" } "q" "m" none rfl rfl).2.2 "image"⟩

/-- C10 (amended): when `ask_question` is called with a non-empty
`image_path` naming a non-existent file, the not-found fault from
`load_image` propagates before any history mutation, leaving the history
exactly unchanged. -/
theorem C10_no_history_on_missing_file (client : VendorClient) (fs : FS)
    (f : ChatFacade) (text model p : String) (hp : p ≠ "") (hfs : fs p = none) :
    (ChatFacade.ask_question client fs f text model (some p)).1 =
      Except.error (PyErr.fileNotFoundError "Изображение не найдено") ∧
    ((ChatFacade.ask_question client fs f text model (some p)).2).history =
      f.history := by
  have hl : ChatFacade.load_image fs p =
      Except.error (PyErr.fileNotFoundError "Изображение не найдено") := by
    unfold ChatFacade.load_image
    rw [hfs]
  constructor
  · simp only [ChatFacade.ask_question, if_neg hp, hl]
  · simp only [ChatFacade.ask_question, if_neg hp, hl]

/-- C10 witness: a concrete missing file leaves a non-empty history
untouched and yields the not-found fault. -/
theorem C10_witness :
    (ChatFacade.ask_question cClientC cFS0 cFacade0 "q" "m" (some "gone.png")).1 =
      Except.error (PyErr.fileNotFoundError "Изображение не найдено") ∧
    ((ChatFacade.ask_question cClientC cFS0 cFacade0 "q" "m" (some "gone.png")).2).history =
      cFacade0.history :=
  C10_no_history_on_missing_file cClientC cFS0 cFacade0 "q" "m" "gone.png"
    (by decide) rfl

/-- C10 counterexample: the claim as stated fails at the supplied path `""`,
which names no file (`cFS0` has no files at all): the call raises nothing
and the history does change — it grows from `[]` to one entry — because
Python's `if image_path:` routes the falsy `""` to the text strategy. -/
theorem C10_counterexample :
    cFS0 "" = none ∧
    (ChatFacade.ask_question cClientC cFS0 cFacade0 "q" "m" (some "")).1 =
      Except.ok [("response", "C"), ("model", "m")] ∧
    ((ChatFacade.ask_question cClientC cFS0 cFacade0 "q" "m" (some "")).2).history =
      [[("q", [("response", "C"), ("model", "m")])]] ∧
    cFacade0.history = [] ∧
    ([[("q", [("response", "C"), ("model", "m")])]] : List (List (String × PyDict))) ≠
      [] :=
  ⟨rfl, rfl, rfl, rfl, by decide⟩
